import Mathlib

/-!
Verification development for the ADSB Lookup API (`src/api/main.py`).

The service keeps an in-memory pandas DataFrame of aircraft records, serves
`GET /aircraft` (exact case-insensitive filtering on `callsign` / `tail`,
truncation via `DataFrame.head(limit)`, projection into an eight-field JSON
object) and emits best-effort telemetry to stdout and an optional Splunk HEC
collector.

Shallow embedding choices:
  * a DataFrame cell is `Cell`: the pandas missing marker `NaN` (`Cell.na`),
    a string, or a numeric value (numeric payloads are carried as `Int`;
    no claim depends on float arithmetic, only on null/NaN plumbing);
  * Python values flowing into JSON responses/events are `Json`
    (with a distinct constructor for a Python float NaN leaking through);
  * Python exceptions are `Except PyErr`; `float(...)` on a non-numeric
    string is the modelled way a projection can raise;
  * real time is threaded as explicit integer parameters (`durationMs`, `now`);
  * the outcome of `requests.post` is an oracle function argument, so that
    theorems can quantify over delivery success and failure.
-/

namespace Adsb

/-- A pandas cell: missing value (NaN), a string, or a number. -/
inductive Cell where
  | na : Cell
  | str : String → Cell
  | num : Int → Cell
deriving DecidableEq, Repr

/-- One row of the CSV-backed DataFrame, with the source column names. -/
structure Record where
  callsign : Cell
  tail : Cell
  icao24 : Cell
  lat : Cell
  lon : Cell
  baro_altitude_m : Cell
  velocity_ms : Cell
  last_seen_utc : Cell
deriving DecidableEq, Repr

/-- A Python value as it is rendered into a JSON response or telemetry event.
`nan` is a Python float NaN object, distinct from the JSON `null`. -/
inductive Json where
  | null : Json
  | nan : Json
  | num : Int → Json
  | str : String → Json
  | arr : List Json → Json
  | obj : List (String × Json) → Json

/-- A Python exception, classified by `type(e).__name__` and `str(e)`. -/
structure PyErr where
  type : String
  msg : String
deriving DecidableEq, Repr

/-- Python truthiness of an `Optional[str]`: `None` and `""` are falsy. -/
def pyTruthy : Option String → Bool
  | none => false
  | some s => !s.isEmpty

/-- pandas `Series.str.lower() == q.lower()` at one cell: string cells compare
lowercased, NaN and non-string cells yield NaN which compares unequal. -/
def cellLowerEq (c : Cell) (q : String) : Bool :=
  match c with
  | Cell.str s => s.toLower == q.toLower
  | _ => false

/-- Lines 165-169 of `main.py`: start from the whole DataFrame; if `callsign`
is truthy filter on it, then if `tail` is truthy filter on it. -/
def applyFilters (df : List Record) (cs t : Option String) : List Record :=
  let d := df
  let d := if pyTruthy cs then d.filter (fun r => cellLowerEq r.callsign (cs.getD "")) else d
  let d := if pyTruthy t then d.filter (fun r => cellLowerEq r.tail (t.getD "")) else d
  d

/-- pandas `DataFrame.head(n)`: first `n` rows for `n ≥ 0`, and all rows but
the last `|n|` for negative `n`. -/
def headPd (rows : List Record) (n : Int) : List Record :=
  if 0 ≤ n then rows.take n.toNat else rows.take (rows.length - n.natAbs)

/-- The FastAPI default of the `limit` query parameter (`limit: int = 25`). -/
def defaultLimit : Int := 25

/-- Lines 165-171 of `main.py`: filters then `d.head(limit)`. -/
def searchRecords (df : List Record) (cs t : Option String) (limit : Int) : List Record :=
  headPd (applyFilters df cs t) limit

/-- pandas `pd.notna` at one cell. -/
def notna : Cell → Bool
  | Cell.na => false
  | _ => true

/-- Digit characters read as a base-ten number. -/
def charsToNat (cs : List Char) : Nat :=
  cs.foldl (fun acc c => acc * 10 + (c.toNat - '0'.toNat)) 0

/-- Python `float(x)` on a cell: numbers convert, NaN stays NaN, and a string
parses when it is a numeric literal (the abstraction keeps decimal-digit
literals) and raises `ValueError` otherwise. -/
def pyFloat : Cell → Except PyErr Json
  | Cell.num v => Except.ok (Json.num v)
  | Cell.na => Except.ok Json.nan
  | Cell.str s =>
    if s.data.all Char.isDigit && !s.data.isEmpty then
      Except.ok (Json.num (Int.ofNat (charsToNat s.data)))
    else
      Except.error ⟨"ValueError", "could not convert string to float: " ++ s⟩

/-- `float(r[col]) if pd.notna(r[col]) else None` for one numeric column. -/
def numField (c : Cell) : Except PyErr Json :=
  if notna c then pyFloat c else Except.ok Json.null

/-- `r.get(col)` for the string columns: the cell value is passed through
unchanged, so a pandas NaN becomes a Python float NaN in the output. -/
def cellRaw : Cell → Json
  | Cell.na => Json.nan
  | Cell.str s => Json.str s
  | Cell.num v => Json.num v

/-- The eight-field response dict of lines 177-186, given the already-computed
numeric field values. -/
def projShape (r : Record) (lv lov av vv : Json) : Json :=
  Json.obj [("callsign", cellRaw r.callsign), ("tail", cellRaw r.tail),
    ("icao24", cellRaw r.icao24), ("lat", lv), ("lon", lov),
    ("altitude_m", av), ("velocity_ms", vv),
    ("last_seen_utc", cellRaw r.last_seen_utc)]

/-- Projection of one surviving row (lines 177-186); the four `float(...)`
calls are the points where a `ValueError` can be raised. -/
def projectRow (r : Record) : Except PyErr Json :=
  (numField r.lat).bind fun lv =>
  (numField r.lon).bind fun lov =>
  (numField r.baro_altitude_m).bind fun av =>
  (numField r.velocity_ms).bind fun vv =>
  Except.ok (projShape r lv lov av vv)

/-- The `for _, r in d.iterrows()` loop of lines 176-186: sequential
projection, aborted by the first raised exception. -/
def projectRows (rs : List Record) : Except PyErr (List Json) :=
  rs.mapM projectRow

/-- The `query_type` expression of lines 192 and 208. -/
def queryType (cs t : Option String) : String :=
  if pyTruthy cs then "callsign" else if pyTruthy t then "tail" else "none"

/-- A Python `Optional[str]` as a JSON value. -/
def optJson : Option String → Json
  | none => Json.null
  | some s => Json.str s

/-- The success telemetry dict of lines 190-199. -/
def successEvent (cs t : Option String) (rowcount : Nat) (durationMs : Int) : Json :=
  Json.obj [("event", Json.str "aircraft_search"),
    ("query_type", Json.str (queryType cs t)),
    ("callsign", optJson cs), ("tail", optJson t),
    ("rowcount", Json.num (Int.ofNat rowcount)),
    ("duration_ms", Json.num durationMs),
    ("status", Json.str "ok"), ("app_version", Json.str "demo-0.1")]

/-- The error telemetry dict of lines 205-216. -/
def errorEvent (cs t : Option String) (limit durationMs : Int) (e : PyErr) : Json :=
  Json.obj [("event", Json.str "error"), ("route", Json.str "/aircraft"),
    ("query_type", Json.str (queryType cs t)),
    ("callsign", optJson cs), ("tail", optJson t),
    ("limit", Json.num limit), ("duration_ms", Json.num durationMs),
    ("status", Json.str "error"),
    ("error_type", Json.str e.type), ("error_msg", Json.str e.msg)]

/-- The HTTP response of the `/aircraft` handler: either the JSON array of
projected rows (status 200), or an `HTTPException` body. -/
inductive Response where
  | ok : List Json → Response
  | error : Nat → String → Response

/-- The `/aircraft` handler (lines 137-218): search, truncate, project; on
success emit the search event and return the rows; on any exception emit the
error event and answer 500 with detail "Internal server error". The emitted
event is returned alongside the response. -/
def aircraft (df : List Record) (cs t : Option String) (limit durationMs : Int) :
    Response × Json :=
  match projectRows (searchRecords df cs t limit) with
  | Except.ok out => (Response.ok out, successEvent cs t out.length durationMs)
  | Except.error e =>
    (Response.error 500 "Internal server error", errorEvent cs t limit durationMs e)

/-- The Splunk HEC environment configuration (lines 72-74). -/
structure HecConfig where
  url : Option String
  token : Option String
  index : Option String

/-- Line 99: `SPLUNK_HEC_URL and SPLUNK_HEC_TOKEN` as a Python truth value. -/
def hecConfigured (cfg : HecConfig) : Bool :=
  pyTruthy cfg.url && pyTruthy cfg.token

/-- The HEC payload of lines 103-110, with the optional `index` key. -/
def hecPayload (cfg : HecConfig) (now : Int) (event : Json) : Json :=
  let base := [("event", event), ("sourcetype", Json.str "adsb_api"),
    ("source", Json.str "fastapi"), ("time", Json.num now)]
  if pyTruthy cfg.index then Json.obj (base ++ [("index", Json.str (cfg.index.getD ""))])
  else Json.obj base

/-- Observable effects of one `emit` call: the structured lines written to
stdout and the HEC payloads for which a network POST was attempted. -/
structure EmitOut where
  console : List Json
  posts : List Json

/-- The `emit` function (lines 76-123). The outcome of `requests.post` is the
oracle `post`; the `try/except Exception: pass` discards it either way. The
`Except PyErr` result records whether `emit` raised to its caller. -/
def emit (cfg : HecConfig) (now : Int) (post : Json → Except String Unit)
    (event : Json) : Except PyErr EmitOut :=
  let console := [event]
  if hecConfigured cfg then
    let payload := hecPayload cfg now event
    match post payload with
    | Except.ok _ => Except.ok ⟨console, [payload]⟩
    | Except.error _ => Except.ok ⟨console, [payload]⟩
  else
    Except.ok ⟨console, []⟩

/-- The `/aircraft` request path including telemetry emission: the handler
computes the response and the event, and the event goes through `emit`. -/
def aircraftWithTelemetry (cfg : HecConfig) (df : List Record)
    (cs t : Option String) (limit durationMs now : Int)
    (post : Json → Except String Unit) : Response × Except PyErr EmitOut :=
  let res := aircraft df cs t limit durationMs
  (res.1, emit cfg now post res.2)

/-- Sample record mirroring the spec scenario: callsign `UAL123`, tail
`N12345`, null barometric altitude (coordinates carried as scaled integers). -/
def rec1 : Record :=
  ⟨Cell.str "UAL123", Cell.str "N12345", Cell.str "abc123", Cell.num 405,
    Cell.num (-739), Cell.na, Cell.num 2301, Cell.str "2024-01-01T00:00:00Z"⟩

/-- A second sample record with all fields present. -/
def rec2 : Record :=
  ⟨Cell.str "DAL456", Cell.str "N777AB", Cell.str "def456", Cell.num 10,
    Cell.num 20, Cell.num 9144, Cell.num 250, Cell.str "2024-01-02T00:00:00Z"⟩

/-- A record whose every cell is the pandas missing marker. -/
def recAllNa : Record :=
  ⟨Cell.na, Cell.na, Cell.na, Cell.na, Cell.na, Cell.na, Cell.na, Cell.na⟩

/-- A malformed record: the `lat` cell holds a non-numeric string, so
`float(r["lat"])` raises a `ValueError` during projection. -/
def recBadLat : Record :=
  ⟨Cell.str "BAD999", Cell.na, Cell.na, Cell.str "oops", Cell.na, Cell.na,
    Cell.na, Cell.na⟩

/-- A two-record dataset used by the witnesses. -/
def ds2 : List Record := [rec1, rec2]

/-- The projected output row of `rec1`. -/
def row1 : Json :=
  projShape rec1 (Json.num 405) (Json.num (-739)) Json.null (Json.num 2301)

lemma isEmpty_false_of_ne (c : String) (hc : c ≠ "") : c.isEmpty = false := by
  rcases hE : c.isEmpty
  · rfl
  · exact absurd ((String.isEmpty_iff c).mp hE) hc

lemma cellLowerEq_iff (c : Cell) (q : String) :
    cellLowerEq c q = true ↔ ∃ s, c = Cell.str s ∧ s.toLower = q.toLower := by
  cases c <;> simp [cellLowerEq]

set_option linter.unnecessarySeqFocus false in
lemma mem_applyFilters (df : List Record) (cs t : Option String) (r : Record) :
    r ∈ applyFilters df cs t ↔
      r ∈ df ∧ (pyTruthy cs = true → cellLowerEq r.callsign (cs.getD "") = true)
        ∧ (pyTruthy t = true → cellLowerEq r.tail (t.getD "") = true) := by
  unfold applyFilters
  rcases hcs : pyTruthy cs <;> rcases hts : pyTruthy t <;>
    simp [List.mem_filter] <;> try tauto

/-- C1: with a non-empty `callsign` query, the search retains exactly the
records whose `callsign` cell is a string equal, lowercased, to the lowercased
query; NaN callsigns are never retained (for any accompanying `tail`). -/
theorem C1_callsign_filter_exact (df : List Record) (c : String) (hc : c ≠ "") :
    (∀ r, r ∈ applyFilters df (some c) none ↔
      r ∈ df ∧ ∃ s, r.callsign = Cell.str s ∧ s.toLower = c.toLower)
    ∧ (∀ t r, r ∈ applyFilters df (some c) t → r.callsign ≠ Cell.na) := by
  have hcE := isEmpty_false_of_ne c hc
  constructor
  · intro r
    rw [mem_applyFilters]
    simp [pyTruthy, hcE, cellLowerEq_iff]
  · intro t r hr
    rw [mem_applyFilters] at hr
    have h2 := hr.2.1 (by simp [pyTruthy, hcE])
    rcases (cellLowerEq_iff _ _).mp h2 with ⟨s, hs, _⟩
    rw [hs]
    intro hcon
    exact Cell.noConfusion hcon

/-- Witness for C1 on a concrete dataset and query. -/
theorem C1_witness :
    ("ual123" : String) ≠ ""
    ∧ ((∀ r, r ∈ applyFilters ds2 (some "ual123") none ↔
        r ∈ ds2 ∧ ∃ s, r.callsign = Cell.str s ∧ s.toLower = "ual123".toLower)
      ∧ (∀ t r, r ∈ applyFilters ds2 (some "ual123") t → r.callsign ≠ Cell.na)) :=
  ⟨by decide, C1_callsign_filter_exact ds2 "ual123" (by decide)⟩

lemma projectRow_ok_shape (r : Record) (row : Json) (h : projectRow r = Except.ok row) :
    ∃ lv lov av vv, numField r.lat = Except.ok lv ∧ numField r.lon = Except.ok lov
      ∧ numField r.baro_altitude_m = Except.ok av ∧ numField r.velocity_ms = Except.ok vv
      ∧ row = projShape r lv lov av vv := by
  rcases hl : numField r.lat with e | lv
  · simp [projectRow, hl, Except.bind] at h
  rcases hlo : numField r.lon with e | lov
  · simp [projectRow, hl, hlo, Except.bind] at h
  rcases ha : numField r.baro_altitude_m with e | av
  · simp [projectRow, hl, hlo, ha, Except.bind] at h
  rcases hv : numField r.velocity_ms with e | vv
  · simp [projectRow, hl, hlo, ha, hv, Except.bind] at h
  have hrow : row = projShape r lv lov av vv := by
    simp [projectRow, hl, hlo, ha, hv, Except.bind] at h
    exact h.symm
  exact ⟨lv, lov, av, vv, rfl, rfl, rfl, rfl, hrow⟩

lemma numField_na_eq_null (c : Cell) (v : Json) (hc : c = Cell.na)
    (hval : numField c = Except.ok v) : v = Json.null := by
  subst hc
  have h0 : numField Cell.na = Except.ok Json.null := rfl
  rw [h0] at hval
  exact (Except.ok.inj hval).symm

/-- C4: with both filters non-empty, the result is the single filter by the
conjunction of both cell matches, i.e. the intersection of the two
single-filter results, never the union. -/
theorem C4_filters_intersect (df : List Record) (c t : String) (hc : c ≠ "")
    (ht : t ≠ "") :
    applyFilters df (some c) (some t)
      = df.filter (fun r => cellLowerEq r.callsign c && cellLowerEq r.tail t)
    ∧ (∀ r, r ∈ applyFilters df (some c) (some t) ↔
        r ∈ applyFilters df (some c) none ∧ r ∈ applyFilters df none (some t)) := by
  have hcE := isEmpty_false_of_ne c hc
  have htE := isEmpty_false_of_ne t ht
  constructor
  · simp only [applyFilters, pyTruthy, hcE, htE, Bool.not_false, if_true,
      Option.getD_some, List.filter_filter]
    apply List.filter_congr
    intro a _
    exact Bool.and_comm _ _
  · intro r
    simp only [mem_applyFilters]
    simp [pyTruthy, hcE, htE]
    tauto

/-- Witness for C4 on a concrete dataset and query pair. -/
theorem C4_witness :
    applyFilters ds2 (some "ual123") (some "n12345")
      = ds2.filter (fun r => cellLowerEq r.callsign "ual123" && cellLowerEq r.tail "n12345")
    ∧ (∀ r, r ∈ applyFilters ds2 (some "ual123") (some "n12345") ↔
        r ∈ applyFilters ds2 (some "ual123") none ∧ r ∈ applyFilters ds2 none (some "n12345")) :=
  C4_filters_intersect ds2 "ual123" "n12345" (by decide) (by decide)

/-- C5: truncation takes the first `limit` filtered records in order; the
declared default is 25; `limit = 0` yields the empty sequence. -/
theorem C5_limit_truncation (df : List Record) (cs t : Option String) (limit : Int) :
    defaultLimit = 25
    ∧ searchRecords df cs t defaultLimit = (applyFilters df cs t).take 25
    ∧ searchRecords df cs t 0 = []
    ∧ (0 ≤ limit → searchRecords df cs t limit = (applyFilters df cs t).take limit.toNat) := by
  refine ⟨rfl, ?_, ?_, ?_⟩
  · simp [searchRecords, headPd, defaultLimit]
  · simp [searchRecords, headPd]
  · intro h
    simp [searchRecords, headPd, h]

/-- Witness for C5 on a concrete dataset, discharging `0 ≤ 3`. -/
theorem C5_witness :
    searchRecords ds2 none none defaultLimit = (applyFilters ds2 none none).take 25
    ∧ searchRecords ds2 none none 0 = []
    ∧ searchRecords ds2 none none 3 = (applyFilters ds2 none none).take (Int.toNat 3) :=
  ⟨(C5_limit_truncation ds2 none none 3).2.1,
   (C5_limit_truncation ds2 none none 3).2.2.1,
   (C5_limit_truncation ds2 none none 3).2.2.2 (by decide)⟩

/-- C10: a negative `limit` is not rejected: the search keeps all filtered
records except the last `|limit|` (pandas `head` on a negative argument), in
order; the result is non-empty whenever more than `|limit|` records survive
the filters, and the handler answers it as a normal 200 response. -/
theorem C10_negative_limit (df : List Record) (cs t : Option String)
    (limit : Int) (h : limit < 0) :
    searchRecords df cs t limit
      = (applyFilters df cs t).take ((applyFilters df cs t).length - limit.natAbs)
    ∧ (limit.natAbs < (applyFilters df cs t).length → searchRecords df cs t limit ≠ [])
    ∧ (∀ durationMs rows, projectRows (searchRecords df cs t limit) = Except.ok rows →
        (aircraft df cs t limit durationMs).1 = Response.ok rows) := by
  have hneg : ¬ (0 ≤ limit) := not_le.mpr h
  refine ⟨?_, ?_, ?_⟩
  · simp [searchRecords, headPd, hneg]
  · intro hlt hnil
    have hlen : (searchRecords df cs t limit).length
        = min ((applyFilters df cs t).length - limit.natAbs) ((applyFilters df cs t).length) := by
      simp [searchRecords, headPd, hneg]
    rw [hnil] at hlen
    simp only [List.length_nil] at hlen
    omega
  · intro durationMs rows hrows
    simp [aircraft, hrows]

/-- Witness for C10: `limit = -1` on the two-record dataset keeps only the
first record and is served as a 200 response. -/
theorem C10_witness :
    searchRecords ds2 none none (-1)
      = (applyFilters ds2 none none).take
          ((applyFilters ds2 none none).length - (Int.natAbs (-1)))
    ∧ searchRecords ds2 none none (-1) ≠ []
    ∧ (aircraft ds2 none none (-1) 7).1 = Response.ok [row1] :=
  ⟨(C10_negative_limit ds2 none none (-1) (by decide)).1,
   (C10_negative_limit ds2 none none (-1) (by decide)).2.1 (by decide),
   (C10_negative_limit ds2 none none (-1) (by decide)).2.2 7 [row1] (by rfl)⟩

/-- C3: every successfully projected row is an object with exactly the eight
fields in order, the `altitude_m` value computed from the source column
`baro_altitude_m`, and every NaN numeric source cell rendered as an explicit
JSON null (which is a different constructor from `0`). -/
theorem C3_projection_fields (r : Record) (row : Json)
    (h : projectRow r = Except.ok row) :
    ∃ lv lov av vv,
      numField r.lat = Except.ok lv ∧ numField r.lon = Except.ok lov
      ∧ numField r.baro_altitude_m = Except.ok av
      ∧ numField r.velocity_ms = Except.ok vv
      ∧ row = Json.obj [("callsign", cellRaw r.callsign), ("tail", cellRaw r.tail),
          ("icao24", cellRaw r.icao24), ("lat", lv), ("lon", lov), ("altitude_m", av),
          ("velocity_ms", vv), ("last_seen_utc", cellRaw r.last_seen_utc)]
      ∧ (r.lat = Cell.na → lv = Json.null) ∧ (r.lon = Cell.na → lov = Json.null)
      ∧ (r.baro_altitude_m = Cell.na → av = Json.null)
      ∧ (r.velocity_ms = Cell.na → vv = Json.null)
      ∧ Json.null ≠ Json.num 0 := by
  rcases projectRow_ok_shape r row h with ⟨lv, lov, av, vv, hl, hlo, ha, hv, hrow⟩
  exact ⟨lv, lov, av, vv, hl, hlo, ha, hv, hrow,
    fun hc => numField_na_eq_null _ _ hc hl, fun hc => numField_na_eq_null _ _ hc hlo,
    fun hc => numField_na_eq_null _ _ hc ha, fun hc => numField_na_eq_null _ _ hc hv,
    fun hcon => Json.noConfusion hcon⟩

/-- Witness for C3 at the spec scenario record (null barometric altitude). -/
theorem C3_witness :
    projectRow rec1 = Except.ok row1
    ∧ ∃ lv lov av vv,
      numField rec1.lat = Except.ok lv ∧ numField rec1.lon = Except.ok lov
      ∧ numField rec1.baro_altitude_m = Except.ok av
      ∧ numField rec1.velocity_ms = Except.ok vv
      ∧ row1 = Json.obj [("callsign", cellRaw rec1.callsign), ("tail", cellRaw rec1.tail),
          ("icao24", cellRaw rec1.icao24), ("lat", lv), ("lon", lov), ("altitude_m", av),
          ("velocity_ms", vv), ("last_seen_utc", cellRaw rec1.last_seen_utc)]
      ∧ (rec1.lat = Cell.na → lv = Json.null) ∧ (rec1.lon = Cell.na → lov = Json.null)
      ∧ (rec1.baro_altitude_m = Cell.na → av = Json.null)
      ∧ (rec1.velocity_ms = Cell.na → vv = Json.null)
      ∧ Json.null ≠ Json.num 0 :=
  ⟨rfl, C3_projection_fields rec1 row1 rfl⟩

/-- C7 counterexample: a record whose `callsign` cell is missing projects with
the NaN object in the `callsign` field, which is not the explicit null the
claim requires for string fields. -/
theorem C7_counterexample :
    projectRow recAllNa = Except.ok (Json.obj [("callsign", Json.nan),
      ("tail", Json.nan), ("icao24", Json.nan), ("lat", Json.null),
      ("lon", Json.null), ("altitude_m", Json.null), ("velocity_ms", Json.null),
      ("last_seen_utc", Json.nan)])
    ∧ Json.nan ≠ Json.null :=
  ⟨rfl, fun hcon => Json.noConfusion hcon⟩

/-- C7 amended: a missing numeric field (`lat`, `lon`, `altitude_m`,
`velocity_ms`) is rendered as the explicit null, but a missing string field
(`callsign`, `tail`, `icao24`, `last_seen_utc`) is passed through as the
pandas NaN object, which is neither null, nor zero, nor the empty string. -/
theorem C7_amended_null_propagation (r : Record) (row : Json)
    (h : projectRow r = Except.ok row) :
    ∃ lv lov av vv, row = projShape r lv lov av vv
      ∧ (r.lat = Cell.na → lv = Json.null) ∧ (r.lon = Cell.na → lov = Json.null)
      ∧ (r.baro_altitude_m = Cell.na → av = Json.null)
      ∧ (r.velocity_ms = Cell.na → vv = Json.null)
      ∧ (r.callsign = Cell.na → cellRaw r.callsign = Json.nan)
      ∧ (r.tail = Cell.na → cellRaw r.tail = Json.nan)
      ∧ (r.icao24 = Cell.na → cellRaw r.icao24 = Json.nan)
      ∧ (r.last_seen_utc = Cell.na → cellRaw r.last_seen_utc = Json.nan)
      ∧ Json.nan ≠ Json.null ∧ Json.nan ≠ Json.num 0 ∧ Json.nan ≠ Json.str ""
      ∧ Json.null ≠ Json.num 0 ∧ Json.null ≠ Json.str "" := by
  rcases projectRow_ok_shape r row h with ⟨lv, lov, av, vv, hl, hlo, ha, hv, hrow⟩
  refine ⟨lv, lov, av, vv, hrow,
    fun hc => numField_na_eq_null _ _ hc hl, fun hc => numField_na_eq_null _ _ hc hlo,
    fun hc => numField_na_eq_null _ _ hc ha, fun hc => numField_na_eq_null _ _ hc hv,
    ?_, ?_, ?_, ?_,
    fun hcon => Json.noConfusion hcon, fun hcon => Json.noConfusion hcon,
    fun hcon => Json.noConfusion hcon, fun hcon => Json.noConfusion hcon,
    fun hcon => Json.noConfusion hcon⟩
  all_goals intro hc
  all_goals rw [hc]
  all_goals rfl

/-- Witness for C7 amended at the all-missing record. -/
theorem C7_witness :
    projectRow recAllNa = Except.ok (projShape recAllNa Json.null Json.null
      Json.null Json.null)
    ∧ ∃ lv lov av vv,
      projShape recAllNa Json.null Json.null Json.null Json.null
        = projShape recAllNa lv lov av vv
      ∧ (recAllNa.lat = Cell.na → lv = Json.null)
      ∧ (recAllNa.lon = Cell.na → lov = Json.null)
      ∧ (recAllNa.baro_altitude_m = Cell.na → av = Json.null)
      ∧ (recAllNa.velocity_ms = Cell.na → vv = Json.null)
      ∧ (recAllNa.callsign = Cell.na → cellRaw recAllNa.callsign = Json.nan)
      ∧ (recAllNa.tail = Cell.na → cellRaw recAllNa.tail = Json.nan)
      ∧ (recAllNa.icao24 = Cell.na → cellRaw recAllNa.icao24 = Json.nan)
      ∧ (recAllNa.last_seen_utc = Cell.na → cellRaw recAllNa.last_seen_utc = Json.nan)
      ∧ Json.nan ≠ Json.null ∧ Json.nan ≠ Json.num 0 ∧ Json.nan ≠ Json.str ""
      ∧ Json.null ≠ Json.num 0 ∧ Json.null ≠ Json.str "" :=
  ⟨rfl, C7_amended_null_propagation recAllNa
    (projShape recAllNa Json.null Json.null Json.null Json.null) rfl⟩

lemma emit_eq (cfg : HecConfig) (now : Int) (post : Json → Except String Unit)
    (ev : Json) :
    emit cfg now post ev
      = Except.ok ⟨[ev], if hecConfigured cfg then [hecPayload cfg now ev] else []⟩ := by
  unfold emit
  rcases hcfg : hecConfigured cfg
  · simp [hcfg]
  · simp only [hcfg, if_true]
    rcases post (hecPayload cfg now ev) with e | u <;> rfl

/-- C6: whenever projection raises, the handler returns the 500 response whose
detail is exactly "Internal server error" (never the exception text) and the
emitted event is the "error" event carrying the route, the filter kind and
values, the elapsed milliseconds and the classified error type and message. -/
theorem C6_error_path (df : List Record) (cs t : Option String)
    (limit durationMs : Int) (e : PyErr)
    (h : projectRows (searchRecords df cs t limit) = Except.error e) :
    aircraft df cs t limit durationMs
      = (Response.error 500 "Internal server error",
         Json.obj [("event", Json.str "error"), ("route", Json.str "/aircraft"),
           ("query_type", Json.str (queryType cs t)),
           ("callsign", optJson cs), ("tail", optJson t),
           ("limit", Json.num limit), ("duration_ms", Json.num durationMs),
           ("status", Json.str "error"),
           ("error_type", Json.str e.type), ("error_msg", Json.str e.msg)]) := by
  simp [aircraft, h, errorEvent]

/-- Witness for C6: the record with a non-numeric `lat` cell raises a
`ValueError` during projection and is answered with the generic 500. -/
theorem C6_witness :
    projectRows (searchRecords [recBadLat] none none 25)
      = Except.error ⟨"ValueError", "could not convert string to float: oops"⟩
    ∧ aircraft [recBadLat] none none 25 3
      = (Response.error 500 "Internal server error",
         Json.obj [("event", Json.str "error"), ("route", Json.str "/aircraft"),
           ("query_type", Json.str (queryType none none)),
           ("callsign", optJson none), ("tail", optJson none),
           ("limit", Json.num 25), ("duration_ms", Json.num 3),
           ("status", Json.str "error"),
           ("error_type", Json.str "ValueError"),
           ("error_msg", Json.str "could not convert string to float: oops")]) :=
  ⟨rfl, C6_error_path [recBadLat] none none 25 3
    ⟨"ValueError", "could not convert string to float: oops"⟩ rfl⟩

/-- C8 counterexample: `limit = -1` is a malformed (negative) limit, yet the
handler neither rejects it nor answers with an empty or error response: it
returns a 200 response with one record. -/
theorem C8_counterexample :
    (aircraft ds2 none none (-1) 0).1 = Response.ok [row1]
    ∧ [row1] ≠ ([] : List Json) := by
  constructor
  · rfl
  · intro hcon
    exact List.noConfusion hcon

/-- C8 amended: the handler performs no query-parameter validation: an
empty-string `callsign` or `tail` behaves exactly like an absent one, any
integer `limit` (negative included) is accepted, and an error response arises
only from an exception during search/projection, always as the generic 500. -/
theorem C8_amended_no_validation (df : List Record) (cs t : Option String)
    (limit durationMs : Int) :
    (aircraft df (some "") t limit durationMs).1
      = (aircraft df none t limit durationMs).1
    ∧ (aircraft df cs (some "") limit durationMs).1
      = (aircraft df cs none limit durationMs).1
    ∧ (∀ s d ev, aircraft df cs t limit durationMs = (Response.error s d, ev) →
        s = 500 ∧ d = "Internal server error"
        ∧ ∃ e, projectRows (searchRecords df cs t limit) = Except.error e) := by
  have h0 : "".isEmpty = true := rfl
  have hcs : ∀ u, applyFilters df (some "") u = applyFilters df none u := by
    intro u
    unfold applyFilters
    simp [pyTruthy, h0]
  have hts : ∀ u, applyFilters df u (some "") = applyFilters df u none := by
    intro u
    unfold applyFilters
    simp [pyTruthy, h0]
  refine ⟨?_, ?_, ?_⟩
  · have hs : searchRecords df (some "") t limit = searchRecords df none t limit := by
      unfold searchRecords
      rw [hcs t]
    unfold aircraft
    rw [hs]
    rcases hp : projectRows (searchRecords df none t limit) with e | out <;> simp [hp]
  · have hs : searchRecords df cs (some "") limit = searchRecords df cs none limit := by
      unfold searchRecords
      rw [hts cs]
    unfold aircraft
    rw [hs]
    rcases hp : projectRows (searchRecords df cs none limit) with e | out <;> simp [hp]
  · intro s d ev hae
    unfold aircraft at hae
    rcases hp : projectRows (searchRecords df cs t limit) with e | out
    · rw [hp] at hae
      simp only at hae
      injection hae with ha hb
      injection ha with h1 h2
      exact ⟨h1.symm, h2.symm, e, rfl⟩
    · rw [hp] at hae
      simp only at hae
      injection hae with ha hb
      exact Response.noConfusion ha

/-- Witness for C8 amended at concrete inputs, including a projection error. -/
theorem C8_witness :
    (aircraft ds2 (some "") none 7 0).1 = (aircraft ds2 none none 7 0).1
    ∧ ((500 : Nat) = 500 ∧ "Internal server error" = "Internal server error"
        ∧ ∃ e, projectRows (searchRecords [recBadLat] none none 25) = Except.error e) :=
  ⟨(C8_amended_no_validation ds2 none none 7 0).1,
   (C8_amended_no_validation [recBadLat] none none 25 3).2.2 500 "Internal server error"
     (errorEvent none none 25 3 ⟨"ValueError", "could not convert string to float: oops"⟩)
     rfl⟩

/-- C2: `emit` returns normally for every configuration, event and remote
outcome (the `try/except` swallows delivery failures), its observable output
does not depend on the remote outcome at all, and the HTTP response of the
`/aircraft` pipeline is identical whether remote delivery succeeds or fails. -/
theorem C2_emit_never_raises (cfg : HecConfig) (now : Int)
    (p1 p2 : Json → Except String Unit) (df : List Record) (cs t : Option String)
    (limit durationMs : Int) (ev : Json) :
    (∃ out, emit cfg now p1 ev = Except.ok out)
    ∧ emit cfg now p1 ev = emit cfg now p2 ev
    ∧ (aircraftWithTelemetry cfg df cs t limit durationMs now p1).1
        = (aircraftWithTelemetry cfg df cs t limit durationMs now p2).1 :=
  ⟨⟨_, emit_eq cfg now p1 ev⟩,
   (emit_eq cfg now p1 ev).trans (emit_eq cfg now p2 ev).symm,
   rfl⟩

/-- C9: every `emit` call writes exactly the event, as one structured value,
to the console sink; when the endpoint URL and the token are not both
configured no network payload is ever produced, while the console line
still is. -/
theorem C9_console_always_no_network_unconfigured (cfg : HecConfig) (now : Int)
    (post : Json → Except String Unit) (ev : Json) :
    (∃ out, emit cfg now post ev = Except.ok out ∧ out.console = [ev])
    ∧ (hecConfigured cfg = false → emit cfg now post ev = Except.ok ⟨[ev], []⟩) := by
  refine ⟨⟨_, emit_eq cfg now post ev, rfl⟩, ?_⟩
  intro h
  rw [emit_eq cfg now post ev, h]
  simp

/-- Witness for C9 at an unconfigured collector. -/
theorem C9_witness :
    hecConfigured ⟨none, none, none⟩ = false
    ∧ emit ⟨none, none, none⟩ 0 (fun _ => Except.ok ()) (Json.str "ping")
        = Except.ok ⟨[Json.str "ping"], []⟩ :=
  ⟨rfl, (C9_console_always_no_network_unconfigured ⟨none, none, none⟩ 0
    (fun _ => Except.ok ()) (Json.str "ping")).2 rfl⟩

end Adsb
